import Mathlib

/-!
Verification of the HMFI business-loan scorecard engine (src/app.py).

The engine is the pure function `calculate_scorecard`, together with its
helpers `pmt`, `safe_divide` and `risk_band`.  Python optional floats are
embedded as `Option ℚ` (exact rational arithmetic idealises IEEE floats),
string-typed categorical fields as `String`, and the two places where the
Python code can raise (`math.pow` on a bad domain inside `pmt`, and the
float division right after it) as an `Except ScoreErr` result.
-/

namespace HMFI

/-- The two exceptions reachable inside the engine: `math.pow` raising
`ValueError` (bad domain), and a float division raising `ZeroDivisionError`. -/
inductive ScoreErr where
  | powDomain
  | divZero
deriving DecidableEq

/-- One loan application snapshot, mirroring the dictionary built by
`build_inputs_from_state` (src/app.py lines 826-877).  Fields the engine
never reads (officer/applicant identity, branch, literacy, business name and
type, ownership, loan purpose, application date) are carried as opaque
strings so that noninterference can be stated. -/
structure ApplicationInput where
  credit_officer_id : String
  credit_officer_name : String
  applicant_name : String
  applicant_id : String
  sex : String
  age_years : Option ℚ
  marital_status : String
  literacy : String
  repeat_borrower : String
  loan_series : Option ℚ
  prior_default : String
  branch : String
  application_date : String
  requested_loan_amount : Option ℚ
  monthly_installment_override : Option ℚ
  term_months : Option ℚ
  annual_interest_rate : Option ℚ
  business_name : String
  ownership : String
  site_visit_assessment : ℤ
  sector : String
  training_certification : String
  is_business_seasonal : String
  business_type : String
  years_in_business_months : Option ℚ
  character_references : String
  loan_purpose : String
  stability_months : Option ℚ
  stated_revenue : Option ℚ
  verified_revenue : Option ℚ
  cogs_inventory : Option ℚ
  other_monthly_income : Option ℚ
  rent : Option ℚ
  household_expenses : Option ℚ
  utilities : Option ℚ
  owner_withdrawals : Option ℚ
  wages : Option ℚ
  transport : Option ℚ
  other_operating_costs : Option ℚ
  total_capital : Option ℚ
  additional_savings_equity : Option ℚ
  collateral_type : String
  collateral_insured : String
  market_value : Option ℚ
deriving DecidableEq

/-- The policy snapshot, mirroring the `lookup_values` dictionary
(src/app.py lines 7-24). -/
structure Lookups where
  STRESS_FACTOR : ℚ
  DSCR_TARGET : ℚ
  CASHFLOW_DEFICIT_REPAY_SHARE_MAX : ℚ
  LTV_MAX_MOVABLE : ℚ
  LTV_MAX_IMMOVABLE : ℚ
  EQUITY_MIN_RATIO : ℚ
  DATA_VARIANCE_MAX : ℚ
  BUSINESS_AGE_MIN : ℚ
  AGE_MAX : ℚ
  BRANCH_APPROVAL_LIMIT_ETB : ℚ
  BUSINESS_LOAN_HARD_MAX_ETB : ℚ
  W_CHARACTER : ℚ
  W_CAPACITY : ℚ
  W_CAPITAL : ℚ
  W_COLLATERAL : ℚ
  W_CONDITION : ℚ
deriving DecidableEq

/-- `DEFAULT_LOOKUP_VALUES` (src/app.py lines 7-24). -/
def defaultLookups : Lookups where
  STRESS_FACTOR := 0.85
  DSCR_TARGET := 1.3
  CASHFLOW_DEFICIT_REPAY_SHARE_MAX := 0.5
  LTV_MAX_MOVABLE := 1.25
  LTV_MAX_IMMOVABLE := 1.1
  EQUITY_MIN_RATIO := 0.1
  DATA_VARIANCE_MAX := 0.2
  BUSINESS_AGE_MIN := 6
  AGE_MAX := 99
  BRANCH_APPROVAL_LIMIT_ETB := 50000
  BUSINESS_LOAN_HARD_MAX_ETB := 3000000
  W_CHARACTER := 30
  W_CAPACITY := 39
  W_CAPITAL := 10
  W_COLLATERAL := 10
  W_CONDITION := 10

/-- `DEFAULT_SECTOR_STRESS` (src/app.py lines 26-32), as the lookup function
`dict.get`: `none` for any unmapped sector string. -/
def defaultSectorStress : String → Option ℚ := fun s =>
  if s = "Trade" then some 0.85
  else if s = "Service" then some 0.8
  else if s = "Manufacturing" then some 0.7
  else if s = "Agriculture" then some 0.6
  else if s = "Other" then some 0.55
  else none

/-- Python's `math.pow` on exact rationals, with its two error modes.
`math.pow(0.0, e)` raises `ValueError` for `e < 0` and returns `1` at
`e = 0`; a negative base with a non-integer exponent also raises
`ValueError`; an integer exponent is computed exactly.  A positive base with
a non-integer exponent yields an irrational real in general, which has no
exact rational value: that branch returns `0` as an explicit modelling
placeholder — no theorem in this file depends on it (every statement either
uses an integer exponent at a concrete input or carries the `mathPow` result
as a hypothesis). -/
def mathPow (b e : ℚ) : Except ScoreErr ℚ :=
  if b = 0 then
    if e < 0 then .error .powDomain
    else if e = 0 then .ok 1
    else .ok 0
  else if e.den = 1 then .ok (b ^ e.num)
  else if b < 0 then .error .powDomain
  else .ok 0

/-- `pmt` (src/app.py lines 128-135): the amortizing-payment formula.
Returns `none` exactly where the Python function returns `None`; the
`math.pow` domain errors and the division by an exactly-zero denominator
surface as `Except.error`, as the Python exceptions would. -/
def pmt (rate periods present_value : ℚ) : Except ScoreErr (Option ℚ) :=
  if rate = 0 then
    if periods = 0 then .ok none
    else .ok (some (present_value / periods))
  else if periods = 0 then .ok none
  else
    match mathPow (1 + rate) (-periods) with
    | .error e => .error e
    | .ok powv =>
        if 1 - powv = 0 then .error .divZero
        else .ok (some (rate * present_value / (1 - powv)))

/-- `safe_divide` (src/app.py lines 138-141). -/
def safe_divide (numerator denominator : Option ℚ) : Option ℚ :=
  match numerator, denominator with
  | some a, some b => if b = 0 then none else some (a / b)
  | _, _ => none

/-- `RISK_BANDS` (src/app.py lines 82-88). -/
def RISK_BANDS : List (ℚ × String) :=
  [(85, "Very Low Risk"), (70, "Low Risk"), (55, "Moderate Risk"),
   (40, "High Risk"), (1, "Very High Risk")]

/-- The descending scan of `risk_band` (src/app.py lines 144-148). -/
def riskBandScan : List (ℚ × String) → ℚ → String
  | [], _ => "Very High Risk"
  | (threshold, band) :: rest, score =>
      if score ≥ threshold then band else riskBandScan rest score

/-- `risk_band` (src/app.py lines 144-148). -/
def risk_band (score : ℚ) : String := riskBandScan RISK_BANDS score

/-- The sector stress factor (src/app.py line 159): `None` for a falsy
(empty) sector string, otherwise the `sector_stress` dictionary lookup. -/
def stressFactorOf (i : ApplicationInput) (sector_stress : String → Option ℚ) :
    Option ℚ :=
  if i.sector = "" then none else sector_stress i.sector

/-- The installment actually used (src/app.py lines 161-173): the explicit
override when present, else `pmt` when amount, term and rate are all
present, else `None`. -/
def installmentUsed (i : ApplicationInput) : Except ScoreErr (Option ℚ) :=
  match i.monthly_installment_override with
  | some m => .ok (some m)
  | none =>
    match i.requested_loan_amount, i.term_months, i.annual_interest_rate with
    | some p, some t, some r => pmt (r / 100 / 12) t p
    | _, _, _ => .ok none

/-- Total operating expenses (src/app.py lines 175-192). -/
def totalOperatingExpenses (i : ApplicationInput) : Option ℚ :=
  match i.rent, i.utilities, i.wages, i.transport, i.other_operating_costs with
  | some a, some b, some c, some d, some e => some (a + b + c + d + e)
  | _, _, _, _, _ => none

/-- Unstressed business surplus (src/app.py lines 194-204). -/
def businessSurplusUnstressed (i : ApplicationInput) : Option ℚ :=
  match i.verified_revenue, i.cogs_inventory, totalOperatingExpenses i with
  | some v, some c, some t => some (v - c - t)
  | _, _, _ => none

/-- Stressed business surplus (src/app.py lines 206-208). -/
def businessSurplusStressed (i : ApplicationInput)
    (sector_stress : String → Option ℚ) : Option ℚ :=
  match businessSurplusUnstressed i, stressFactorOf i sector_stress with
  | some b, some f => some (b * f)
  | _, _ => none

/-- Stressed total monthly surplus (src/app.py lines 210-225). -/
def totalMonthlySurplusStressed (i : ApplicationInput)
    (sector_stress : String → Option ℚ) : Option ℚ :=
  match businessSurplusStressed i sector_stress, i.other_monthly_income,
      i.household_expenses, i.owner_withdrawals with
  | some b, some o, some h, some w => some (b + o - h - w)
  | _, _, _, _ => none

/-- Unstressed total monthly surplus (src/app.py lines 227-242). -/
def totalMonthlySurplusUnstressed (i : ApplicationInput) : Option ℚ :=
  match businessSurplusUnstressed i, i.other_monthly_income,
      i.household_expenses, i.owner_withdrawals with
  | some b, some o, some h, some w => some (b + o - h - w)
  | _, _, _, _ => none

/-- Repayment share (src/app.py lines 247-252): forced to `1` when the
unstressed total surplus is non-positive, else installment over surplus;
`None` when either input is missing. -/
def repaymentShareOf (installment total_surplus : Option ℚ) : Option ℚ :=
  match installment, total_surplus with
  | some m, some t => if t ≤ 0 then some 1 else some (m / t)
  | _, _ => none

/-- Income variance (src/app.py lines 254-262): requires stated revenue
present and verified revenue present and nonzero. -/
def incomeVariance (i : ApplicationInput) : Option ℚ :=
  match i.stated_revenue, i.verified_revenue with
  | some st, some v => if v = 0 then none else some (|st - v| / v)
  | _, _ => none

/-- Equity ratio (src/app.py lines 264-275). -/
def equityRatio (i : ApplicationInput) : Option ℚ :=
  match i.requested_loan_amount, i.total_capital, i.additional_savings_equity with
  | some r, some t, some a => if r = 0 then none else some ((t + a) / r)
  | _, _, _ => none

/-- Liquidity coverage (src/app.py lines 277-294). -/
def liquidityCoverage (i : ApplicationInput) (installment : Option ℚ) :
    Option ℚ :=
  match i.additional_savings_equity, totalOperatingExpenses i,
      i.cogs_inventory, installment, i.owner_withdrawals with
  | some ase, some toe, some cogs, some m, some ow =>
      safe_divide (some ase) (some (cogs + toe + m + ow))
  | _, _, _, _, _ => none

/-- Collateral haircut (src/app.py lines 296-300). -/
def haircutOf (collateral_type : String) : ℚ :=
  if collateral_type = "Movable" then 0.5
  else if collateral_type = "Immovable" then 0.3
  else 0

/-- Loan-to-value (src/app.py lines 302-314): computed only when the
requested amount and market value are present and the collateral type is a
non-empty string; forced to the sentinel `99` for collateral type `"None"`. -/
def ltvOf (i : ApplicationInput) : Option ℚ :=
  match i.requested_loan_amount, i.market_value with
  | some r, some m =>
      if i.collateral_type = "" then none
      else if i.collateral_type = "None" then some 99
      else safe_divide (some r) (some (m * (1 - haircutOf i.collateral_type)))
  | _, _ => none

/-- Every derived metric of the engine (src/app.py lines 157-316). -/
structure Derived where
  stress_factor : Option ℚ
  monthly_installment_used : Option ℚ
  total_operating_expenses : Option ℚ
  business_surplus_unstressed : Option ℚ
  business_surplus_stressed : Option ℚ
  total_monthly_surplus_stressed : Option ℚ
  total_monthly_surplus_unstressed : Option ℚ
  stressed_dscr : Option ℚ
  dscr : Option ℚ
  repayment_share : Option ℚ
  income_variance : Option ℚ
  equity_ratio : Option ℚ
  liquidity_coverage : Option ℚ
  haircut : ℚ
  collateral_coverage : Option ℚ
  ltv : Option ℚ
deriving DecidableEq

/-- The financial derivation stage of `calculate_scorecard` (src/app.py
lines 157-316).  The only fallible step is `pmt` inside the installment
computation; its exception aborts the whole evaluation, as in Python. -/
def deriveMetrics (i : ApplicationInput) (sector_stress : String → Option ℚ) :
    Except ScoreErr Derived :=
  (installmentUsed i).map fun mi =>
    { stress_factor := stressFactorOf i sector_stress
      monthly_installment_used := mi
      total_operating_expenses := totalOperatingExpenses i
      business_surplus_unstressed := businessSurplusUnstressed i
      business_surplus_stressed := businessSurplusStressed i sector_stress
      total_monthly_surplus_stressed := totalMonthlySurplusStressed i sector_stress
      total_monthly_surplus_unstressed := totalMonthlySurplusUnstressed i
      stressed_dscr := safe_divide (totalMonthlySurplusStressed i sector_stress) mi
      dscr := safe_divide (businessSurplusUnstressed i) mi
      repayment_share := repaymentShareOf mi (totalMonthlySurplusUnstressed i)
      income_variance := incomeVariance i
      equity_ratio := equityRatio i
      liquidity_coverage := liquidityCoverage i mi
      haircut := haircutOf i.collateral_type
      collateral_coverage := safe_divide (some 1) (ltvOf i)
      ltv := ltvOf i }

/-- The Character category score before its cap (src/app.py lines 322-345). -/
def scoreCharacterRaw (i : ApplicationInput) : ℚ :=
  (if i.training_certification = "Yes" then 5 else 0)
  + (if i.sex = "F" then 3 else 0)
  + (match i.years_in_business_months with
     | none => 0
     | some y => if y ≥ 36 then 12 else if y ≥ 24 then 10 else if y ≥ 12 then 6 else 0)
  + (if i.character_references = "Good" then 5
     else if i.character_references = "Average" then 2 else 0)
  + (match i.age_years with
     | none => 0
     | some a => if a ≥ 40 then 2 else 0)
  + (if i.marital_status = "Married" then 1 else 0)
  + (if i.repeat_borrower = "Yes" then 3 else 0)
  + (match i.loan_series with
     | none => 0
     | some n => if i.repeat_borrower = "Yes" ∧ n ≥ 3 then 5 else 0)

/-- Character score capped at `W_CHARACTER` (src/app.py line 346). -/
def scoreCharacter (i : ApplicationInput) (l : Lookups) : ℚ :=
  min l.W_CHARACTER (scoreCharacterRaw i)

/-- The Capacity tier on the stressed DSCR (src/app.py lines 348-359). -/
def scoreCapacityRaw (l : Lookups) (d : Derived) : ℚ :=
  match d.stressed_dscr with
  | none => 0
  | some v =>
      if v ≥ 1.5 then 34
      else if v ≥ l.DSCR_TARGET then 28
      else if v ≥ 1.1 then 18
      else if v ≥ 0.9 then 8
      else 0

/-- Capacity score capped at `W_CAPACITY` (src/app.py line 360). -/
def scoreCapacity (l : Lookups) (d : Derived) : ℚ :=
  min l.W_CAPACITY (scoreCapacityRaw l d)

/-- The Capital tier on the equity ratio (src/app.py lines 362-373). -/
def scoreCapitalRaw (l : Lookups) (d : Derived) : ℚ :=
  match d.equity_ratio with
  | none => 0
  | some v =>
      if v ≥ 0.2 then 15
      else if v ≥ 0.15 then 12
      else if v ≥ l.EQUITY_MIN_RATIO then 8
      else if v ≥ 0.05 then 3
      else 0

/-- Capital score capped at `W_CAPITAL` (src/app.py line 374). -/
def scoreCapital (l : Lookups) (d : Derived) : ℚ :=
  min l.W_CAPITAL (scoreCapitalRaw l d)

/-- The Collateral score before its cap (src/app.py lines 376-398): `0` for
collateral type `"None"`; otherwise the LTV tier, minus `2` when the
collateral is uninsured — this difference can be negative. -/
def scoreCollateralRaw (i : ApplicationInput) (l : Lookups) (d : Derived) : ℚ :=
  if i.collateral_type = "None" then 0
  else
    (match d.ltv with
     | none => 0
     | some v =>
         if (i.collateral_type = "Movable" ∧ v ≤ 1)
             ∨ (i.collateral_type = "Immovable" ∧ v ≤ 1) then 10
         else if (i.collateral_type = "Movable" ∧ v ≤ l.LTV_MAX_MOVABLE)
             ∨ (i.collateral_type = "Immovable" ∧ v ≤ l.LTV_MAX_IMMOVABLE) then 6
         else 0)
    - (if i.collateral_insured = "No" then 2 else 0)

/-- Collateral score capped at `W_COLLATERAL` (src/app.py line 399); note
the cap is `min` only, so `-2` passes through. -/
def scoreCollateral (i : ApplicationInput) (l : Lookups) (d : Derived) : ℚ :=
  min l.W_COLLATERAL (scoreCollateralRaw i l d)

/-- The sector bonus of the Conditions score (src/app.py lines 416-422). -/
def sectorScore (sector : String) : ℚ :=
  if sector = "Trade" then 3
  else if sector = "Service" then 2
  else if sector = "Agriculture" then 1
  else if sector = "Manufacturing" then 1
  else 0

/-- The Conditions score before its cap (src/app.py lines 401-423). -/
def scoreConditionsRaw (i : ApplicationInput) : ℚ :=
  (if i.site_visit_assessment ≥ 4 then 5
   else if i.site_visit_assessment = 3 then 3
   else 0)
  + (if i.is_business_seasonal = "No" then 2 else 0)
  + (match i.years_in_business_months, i.stability_months with
     | some y, some s => if s = y ∧ y ≥ 6 then 2 else 0
     | _, _ => 0)
  + sectorScore i.sector

/-- Conditions score capped at `W_CONDITION` (src/app.py line 424). -/
def scoreConditions (i : ApplicationInput) (l : Lookups) : ℚ :=
  min l.W_CONDITION (scoreConditionsRaw i)

/-- Total score: the sum of the five capped scores, clamped to `[1, 99]`
(src/app.py lines 426-427). -/
def totalScore (i : ApplicationInput) (l : Lookups) (d : Derived) : ℚ :=
  max 1 (min 99
    (scoreCharacter i l + scoreCapacity l d + scoreCapital l d
      + scoreCollateral i l d + scoreConditions i l))

/-- The ten boolean policy flags (src/app.py lines 429-474). -/
structure Flags where
  age_flag : Bool
  cf_deficit_flag : Bool
  income_var_flag : Bool
  equity_flag : Bool
  training_flag : Bool
  ltv_flag : Bool
  collateral_flag : Bool
  branch_limit_flag : Bool
  loan_max_flag : Bool
  default_flag : Bool
deriving DecidableEq

/-- The flag evaluator (src/app.py lines 429-474), field for field. -/
def flagsOf (i : ApplicationInput) (l : Lookups) (d : Derived) : Flags where
  age_flag :=
    match i.years_in_business_months with
    | none => true
    | some y => decide (y < l.BUSINESS_AGE_MIN)
  cf_deficit_flag :=
    match d.total_monthly_surplus_unstressed, d.monthly_installment_used with
    | some ts, some _ =>
        decide (ts ≤ 0)
        || (match d.repayment_share with
            | some rs => decide (rs > l.CASHFLOW_DEFICIT_REPAY_SHARE_MAX)
            | none => false)
    | _, _ => false
  income_var_flag :=
    match d.income_variance with
    | some v => decide (v > l.DATA_VARIANCE_MAX)
    | none => false
  equity_flag :=
    match d.equity_ratio with
    | some e => decide (e < l.EQUITY_MIN_RATIO)
    | none => false
  training_flag := decide (i.training_certification = "No")
  ltv_flag :=
    match d.ltv with
    | some v =>
        (decide (i.collateral_type = "Movable") && decide (v > l.LTV_MAX_MOVABLE))
        || (decide (i.collateral_type = "Immovable")
            && decide (v > l.LTV_MAX_IMMOVABLE))
    | none => false
  collateral_flag :=
    decide (i.collateral_type ≠ "") && decide (i.collateral_insured ≠ "")
    && (decide (i.collateral_insured = "No") || decide (i.collateral_type = "None"))
  branch_limit_flag :=
    match i.requested_loan_amount with
    | some a => decide (a > l.BRANCH_APPROVAL_LIMIT_ETB)
    | none => false
  loan_max_flag :=
    match i.requested_loan_amount with
    | some a => decide (a > l.BUSINESS_LOAN_HARD_MAX_ETB)
    | none => false
  default_flag := decide (i.prior_default = "Yes")

/-- The ordered triggered-flag message list (src/app.py lines 476-498),
with the unconditional no-collateral message appended last. -/
def triggeredFlags (i : ApplicationInput) (f : Flags) : List String :=
  (if f.age_flag then ["REJECT: Business less than 6 months"] else [])
  ++ (if f.cf_deficit_flag then
        ["REJECT: Cash flow deficit (repayment >50% of surplus)"] else [])
  ++ (if f.income_var_flag then ["REJECT: Data inconsistency (>20% variance)"] else [])
  ++ (if f.default_flag then ["REJECT: Prior default with HMFI"] else [])
  ++ (if f.loan_max_flag then ["REJECT: Above hard max loan amount"] else [])
  ++ (if f.equity_flag then ["REFER: Equity <10% of loan"] else [])
  ++ (if f.training_flag then ["REFER: No training/certification"] else [])
  ++ (if f.ltv_flag then ["REFER: Collateral shortfall (LTV too high)"] else [])
  ++ (if f.collateral_flag then ["REFER: Collateral not insured"] else [])
  ++ (if f.branch_limit_flag then ["REFER: Above branch approval limit"] else [])
  ++ (if i.collateral_type = "None" then ["REJECT: No Collateral"] else [])

/-- The ordered decision tree (src/app.py lines 500-516). -/
def recommendationOf (i : ApplicationInput) (f : Flags) (total : ℚ) : String :=
  if f.age_flag || f.cf_deficit_flag || f.income_var_flag || f.default_flag
      || f.loan_max_flag || decide (i.collateral_type = "None") then
    "REJECT"
  else if total ≤ 54 then "REJECT"
  else if f.branch_limit_flag || f.ltv_flag || f.collateral_flag then
    "REFER – HEAD OFFICE"
  else if total ≤ 69 || f.equity_flag || f.training_flag then
    "APPROVE WITH CONDITIONS – BRANCH MANAGER"
  else "APPROVE"

/-- The result record returned by `calculate_scorecard`
(src/app.py lines 518-544). -/
structure ScorecardResult where
  stress_factor : Option ℚ
  monthly_installment_used : Option ℚ
  total_operating_expenses : Option ℚ
  business_surplus_unstressed : Option ℚ
  business_surplus_stressed : Option ℚ
  total_monthly_surplus_stressed : Option ℚ
  total_monthly_surplus_unstressed : Option ℚ
  stressed_dscr : Option ℚ
  dscr : Option ℚ
  repayment_share : Option ℚ
  income_variance : Option ℚ
  equity_ratio : Option ℚ
  liquidity_coverage : Option ℚ
  haircut : ℚ
  collateral_coverage : Option ℚ
  ltv : Option ℚ
  score_character : ℚ
  score_capacity : ℚ
  score_capital : ℚ
  score_collateral : ℚ
  score_conditions : ℚ
  total_score : ℚ
  risk_band : String
  triggered_flags : List String
  recommendation : String
deriving DecidableEq

/-- Assembles the scoring, flag and decision stages on top of the derived
metrics (src/app.py lines 318-544). -/
def assembleResult (i : ApplicationInput) (l : Lookups) (d : Derived) :
    ScorecardResult :=
  let f := flagsOf i l d
  let total := totalScore i l d
  { stress_factor := d.stress_factor
    monthly_installment_used := d.monthly_installment_used
    total_operating_expenses := d.total_operating_expenses
    business_surplus_unstressed := d.business_surplus_unstressed
    business_surplus_stressed := d.business_surplus_stressed
    total_monthly_surplus_stressed := d.total_monthly_surplus_stressed
    total_monthly_surplus_unstressed := d.total_monthly_surplus_unstressed
    stressed_dscr := d.stressed_dscr
    dscr := d.dscr
    repayment_share := d.repayment_share
    income_variance := d.income_variance
    equity_ratio := d.equity_ratio
    liquidity_coverage := d.liquidity_coverage
    haircut := d.haircut
    collateral_coverage := d.collateral_coverage
    ltv := d.ltv
    score_character := scoreCharacter i l
    score_capacity := scoreCapacity l d
    score_capital := scoreCapital l d
    score_collateral := scoreCollateral i l d
    score_conditions := scoreConditions i l
    total_score := total
    risk_band := risk_band total
    triggered_flags := triggeredFlags i f
    recommendation := recommendationOf i f total }

/-- `calculate_scorecard` (src/app.py lines 157-544): derivation, scoring,
flags and decision; a `pmt` exception aborts the evaluation. -/
def calculate_scorecard (i : ApplicationInput) (l : Lookups)
    (sector_stress : String → Option ℚ) : Except ScoreErr ScorecardResult :=
  (deriveMetrics i sector_stress).map (assembleResult i l)

/-- An application with every optional field absent and every categorical
field empty: the base point for the concrete evaluations below. -/
def blankInput : ApplicationInput where
  credit_officer_id := ""
  credit_officer_name := ""
  applicant_name := ""
  applicant_id := ""
  sex := ""
  age_years := none
  marital_status := ""
  literacy := ""
  repeat_borrower := ""
  loan_series := none
  prior_default := ""
  branch := ""
  application_date := ""
  requested_loan_amount := none
  monthly_installment_override := none
  term_months := none
  annual_interest_rate := none
  business_name := ""
  ownership := ""
  site_visit_assessment := 0
  sector := ""
  training_certification := ""
  is_business_seasonal := ""
  business_type := ""
  years_in_business_months := none
  character_references := ""
  loan_purpose := ""
  stability_months := none
  stated_revenue := none
  verified_revenue := none
  cogs_inventory := none
  other_monthly_income := none
  rent := none
  household_expenses := none
  utilities := none
  owner_withdrawals := none
  wages := none
  transport := none
  other_operating_costs := none
  total_capital := none
  additional_savings_equity := none
  collateral_type := ""
  collateral_insured := ""
  market_value := none

/-- The Scenario A application of the specification: the documented customer
input defaults (src/app.py lines 34-78) parsed the way
`build_inputs_from_state` parses them. -/
def scenarioA : ApplicationInput where
  credit_officer_id := "CO-001"
  credit_officer_name := "Sample Officer"
  applicant_name := "Sample Applicant"
  applicant_id := "APP-0001"
  sex := "M"
  age_years := some 35
  marital_status := "Married"
  literacy := "Secondary/High School"
  repeat_borrower := "No"
  loan_series := some 2
  prior_default := "No"
  branch := "Head Office"
  application_date := "2026-10-12"
  requested_loan_amount := some 50000
  monthly_installment_override := some 4584
  term_months := some 12
  annual_interest_rate := some 18
  business_name := "Sample Business"
  ownership := "Sole Proprietor"
  site_visit_assessment := 3
  sector := "Trade"
  training_certification := "Yes"
  is_business_seasonal := "No"
  business_type := "Retail / Trading"
  years_in_business_months := some 24
  character_references := "Good"
  loan_purpose := "Working Capital"
  stability_months := some 24
  stated_revenue := some 30000
  verified_revenue := some 28000
  cogs_inventory := some 12000
  other_monthly_income := some 2000
  rent := some 3000
  household_expenses := some 5000
  utilities := some 800
  owner_withdrawals := some 1500
  wages := some 2500
  transport := some 700
  other_operating_costs := some 1000
  total_capital := some 20000
  additional_savings_equity := some 10000
  collateral_type := "Movable"
  collateral_insured := "Yes"
  market_value := some 150000

/-- The derived metrics of `blankInput`: everything absent. -/
def blankDerived : Derived where
  stress_factor := none
  monthly_installment_used := none
  total_operating_expenses := none
  business_surplus_unstressed := none
  business_surplus_stressed := none
  total_monthly_surplus_stressed := none
  total_monthly_surplus_unstressed := none
  stressed_dscr := none
  dscr := none
  repayment_share := none
  income_variance := none
  equity_ratio := none
  liquidity_coverage := none
  haircut := 0
  collateral_coverage := none
  ltv := none

/-- The result the specification's Scenario A promises, with the exact
rational values the engine computes. -/
def scenarioAExpected : ScorecardResult where
  stress_factor := some 0.85
  monthly_installment_used := some 4584
  total_operating_expenses := some 8000
  business_surplus_unstressed := some 8000
  business_surplus_stressed := some 6800
  total_monthly_surplus_stressed := some 2300
  total_monthly_surplus_unstressed := some 3500
  stressed_dscr := some (2300 / 4584)
  dscr := some (8000 / 4584)
  repayment_share := some (4584 / 3500)
  income_variance := some (1 / 14)
  equity_ratio := some (3 / 5)
  liquidity_coverage := some (10000 / 26084)
  haircut := 0.5
  collateral_coverage := some (3 / 2)
  ltv := some (2 / 3)
  score_character := 21
  score_capacity := 0
  score_capital := 10
  score_collateral := 10
  score_conditions := 10
  total_score := 51
  risk_band := "High Risk"
  triggered_flags := ["REJECT: Cash flow deficit (repayment >50% of surplus)"]
  recommendation := "REJECT"

/-- The derived metrics of Scenario A. -/
def scenarioADerived : Derived where
  stress_factor := some 0.85
  monthly_installment_used := some 4584
  total_operating_expenses := some 8000
  business_surplus_unstressed := some 8000
  business_surplus_stressed := some 6800
  total_monthly_surplus_stressed := some 2300
  total_monthly_surplus_unstressed := some 3500
  stressed_dscr := some (2300 / 4584)
  dscr := some (8000 / 4584)
  repayment_share := some (4584 / 3500)
  income_variance := some (1 / 14)
  equity_ratio := some (3 / 5)
  liquidity_coverage := some (10000 / 26084)
  haircut := 0.5
  collateral_coverage := some (3 / 2)
  ltv := some (2 / 3)

/-- The flag record of Scenario A: only the cash-flow-deficit flag fires. -/
def scenarioAFlags : Flags where
  age_flag := false
  cf_deficit_flag := true
  income_var_flag := false
  equity_flag := false
  training_flag := false
  ltv_flag := false
  collateral_flag := false
  branch_limit_flag := false
  loan_max_flag := false
  default_flag := false

/-- The application that crashes the engine: no installment override,
amount 50000, term 12 months, annual rate −1200 % — a monthly rate of
exactly −1, on which `math.pow(0.0, -12.0)` raises `ValueError`. -/
def c4FailingInput : ApplicationInput :=
  { blankInput with
      requested_loan_amount := some 50000
      term_months := some 12
      annual_interest_rate := some (-1200) }

/-- An application with movable, uninsured collateral and no market value:
its LTV tier scores 0 and the uninsured deduction takes the published
collateral score to −2. -/
def c2Uninsured : ApplicationInput :=
  { blankInput with collateral_type := "Movable", collateral_insured := "No" }

/-- An application whose collateral type is `"None"` but whose requested
amount and market value are both absent. -/
def c3NoValues : ApplicationInput := { blankInput with collateral_type := "None" }

/-- An application with collateral type `"None"` and both the requested
amount and the market value present. -/
def c3WithValues : ApplicationInput :=
  { blankInput with
      collateral_type := "None"
      requested_loan_amount := some 100
      market_value := some 50 }

/-- The derived metrics of `c3WithValues`: only the LTV sentinel and its
coverage are populated. -/
def c3ValuesDerived : Derived :=
  { blankDerived with ltv := some 99, collateral_coverage := some (1 / 99) }

/-- `blankInput` with a prior default: a single hard-stop condition. -/
def priorDefaultInput : ApplicationInput := { blankInput with prior_default := "Yes" }

/-- `blankInput` with a different applicant name: the pair witnesses that
opaque identity fields cannot influence the result. -/
def renamedBlankInput : ApplicationInput :=
  { blankInput with applicant_name := "Another Applicant" }

instance {ε α : Type} [DecidableEq ε] [DecidableEq α] : DecidableEq (Except ε α)
  | .error a, .error b => decidable_of_iff (a = b) (by simp)
  | .error _, .ok _ => isFalse (by simp)
  | .ok _, .error _ => isFalse (by simp)
  | .ok a, .ok b => decidable_of_iff (a = b) (by simp)

/-- Modelled from the claim's words (§4.4 of the spec): the band whose
threshold is the highest one ≤ the score among the five named bands. -/
def riskBandFloor (score : ℚ) : String :=
  if 85 ≤ score then "Very Low Risk"
  else if 70 ≤ score then "Low Risk"
  else if 55 ≤ score then "Moderate Risk"
  else if 40 ≤ score then "High Risk"
  else "Very High Risk"

/-- Severity order on the five band labels: higher = lower risk. -/
def bandRank (band : String) : ℕ :=
  if band = "Very Low Risk" then 4
  else if band = "Low Risk" then 3
  else if band = "Moderate Risk" then 2
  else if band = "High Risk" then 1
  else 0

/-! ### Inversion and projection helpers -/

lemma calculate_scorecard_ok {i : ApplicationInput} {l : Lookups}
    {s : String → Option ℚ} {r : ScorecardResult}
    (h : calculate_scorecard i l s = .ok r) :
    ∃ d, deriveMetrics i s = .ok d ∧ r = assembleResult i l d := by
  unfold calculate_scorecard at h
  cases hd : deriveMetrics i s with
  | error e => rw [hd] at h; simp [Except.map] at h
  | ok d =>
      rw [hd] at h
      simp only [Except.map, Except.ok.injEq] at h
      exact ⟨d, rfl, h.symm⟩

lemma deriveMetrics_fields {i : ApplicationInput} {s : String → Option ℚ}
    {d : Derived} (h : deriveMetrics i s = .ok d) :
    installmentUsed i = .ok d.monthly_installment_used
    ∧ d.stress_factor = stressFactorOf i s
    ∧ d.total_operating_expenses = totalOperatingExpenses i
    ∧ d.business_surplus_unstressed = businessSurplusUnstressed i
    ∧ d.total_monthly_surplus_unstressed = totalMonthlySurplusUnstressed i
    ∧ d.repayment_share
        = repaymentShareOf d.monthly_installment_used (totalMonthlySurplusUnstressed i)
    ∧ d.equity_ratio = equityRatio i
    ∧ d.ltv = ltvOf i := by
  unfold deriveMetrics at h
  cases hmi : installmentUsed i with
  | error e => rw [hmi] at h; simp [Except.map] at h
  | ok mi =>
      rw [hmi] at h
      simp only [Except.map, Except.ok.injEq] at h
      subst h
      exact ⟨rfl, rfl, rfl, rfl, rfl, rfl, rfl, rfl⟩

lemma assembleResult_total_score (i : ApplicationInput) (l : Lookups) (d : Derived) :
    (assembleResult i l d).total_score = totalScore i l d := rfl

lemma assembleResult_recommendation (i : ApplicationInput) (l : Lookups) (d : Derived) :
    ScorecardResult.recommendation (assembleResult i l d)
      = recommendationOf i (flagsOf i l d) (totalScore i l d) := rfl

lemma assembleResult_triggered (i : ApplicationInput) (l : Lookups) (d : Derived) :
    (assembleResult i l d).triggered_flags = triggeredFlags i (flagsOf i l d) := rfl

/-! ### Scenario A evaluation -/

lemma sA_installment : installmentUsed scenarioA = .ok (some 4584) := by
  norm_num [installmentUsed, scenarioA]

lemma sA_derive :
    deriveMetrics scenarioA defaultSectorStress = .ok scenarioADerived := by
  rw [deriveMetrics, sA_installment]
  norm_num +decide [Except.map, scenarioADerived, stressFactorOf,
    totalOperatingExpenses, businessSurplusUnstressed, businessSurplusStressed,
    totalMonthlySurplusStressed, totalMonthlySurplusUnstressed, safe_divide,
    repaymentShareOf, incomeVariance, equityRatio, liquidityCoverage, haircutOf,
    ltvOf, scenarioA, defaultSectorStress]

lemma sA_flags :
    flagsOf scenarioA defaultLookups scenarioADerived = scenarioAFlags := by
  norm_num +decide [flagsOf, scenarioA, scenarioADerived, defaultLookups,
    scenarioAFlags]

lemma sA_scores :
    scoreCharacter scenarioA defaultLookups = 21
    ∧ scoreCapacity defaultLookups scenarioADerived = 0
    ∧ scoreCapital defaultLookups scenarioADerived = 10
    ∧ scoreCollateral scenarioA defaultLookups scenarioADerived = 10
    ∧ scoreConditions scenarioA defaultLookups = 10 := by
  refine ⟨?_, ?_, ?_, ?_, ?_⟩
  · norm_num +decide [scoreCharacter, scoreCharacterRaw, scenarioA,
      defaultLookups, min_def]
  · norm_num +decide [scoreCapacity, scoreCapacityRaw, scenarioADerived,
      defaultLookups, min_def]
  · norm_num +decide [scoreCapital, scoreCapitalRaw, scenarioADerived,
      defaultLookups, min_def]
  · norm_num +decide [scoreCollateral, scoreCollateralRaw, scenarioA,
      scenarioADerived, defaultLookups, min_def]
  · norm_num +decide [scoreConditions, scoreConditionsRaw, sectorScore,
      scenarioA, defaultLookups, min_def]

lemma sA_total : totalScore scenarioA defaultLookups scenarioADerived = 51 := by
  rw [totalScore, sA_scores.1, sA_scores.2.1, sA_scores.2.2.1, sA_scores.2.2.2.1,
    sA_scores.2.2.2.2]
  norm_num [min_def, max_def]

lemma sA_assemble :
    assembleResult scenarioA defaultLookups scenarioADerived = scenarioAExpected := by
  simp only [assembleResult]
  rw [sA_flags, sA_total]
  norm_num +decide [scenarioAExpected, scenarioADerived, scenarioAFlags,
    scoreCharacter, scoreCharacterRaw, scoreCapacity, scoreCapacityRaw,
    scoreCapital, scoreCapitalRaw, scoreCollateral, scoreCollateralRaw,
    scoreConditions, scoreConditionsRaw, sectorScore, scenarioA, defaultLookups,
    min_def, risk_band, riskBandScan, RISK_BANDS, triggeredFlags,
    recommendationOf]

lemma sA_calc :
    calculate_scorecard scenarioA defaultLookups defaultSectorStress
      = .ok scenarioAExpected := by
  rw [calculate_scorecard, sA_derive]
  simp only [Except.map]
  rw [sA_assemble]

lemma c3v_derive :
    deriveMetrics c3WithValues defaultSectorStress = .ok c3ValuesDerived := by
  norm_num +decide [deriveMetrics, installmentUsed, c3WithValues, blankInput,
    c3ValuesDerived, blankDerived, Except.map, stressFactorOf,
    totalOperatingExpenses, businessSurplusUnstressed, businessSurplusStressed,
    totalMonthlySurplusStressed, totalMonthlySurplusUnstressed, safe_divide,
    repaymentShareOf, incomeVariance, equityRatio, liquidityCoverage, haircutOf,
    ltvOf, defaultSectorStress]

/-! ### Bounds on the category scores -/

lemma ite_nonneg {c : Prop} [Decidable c] {a b : ℚ} (ha : 0 ≤ a) (hb : 0 ≤ b) :
    0 ≤ if c then a else b := by
  split <;> assumption

lemma scoreCharacterRaw_nonneg (i : ApplicationInput) : 0 ≤ scoreCharacterRaw i := by
  unfold scoreCharacterRaw
  have h1 : (0:ℚ) ≤ if i.training_certification = "Yes" then 5 else 0 :=
    ite_nonneg (by norm_num) le_rfl
  have h2 : (0:ℚ) ≤ if i.sex = "F" then 3 else 0 := ite_nonneg (by norm_num) le_rfl
  have h3 : (0:ℚ) ≤
      (match i.years_in_business_months with
       | none => 0
       | some y => if y ≥ 36 then 12 else if y ≥ 24 then 10 else if y ≥ 12 then 6 else 0) := by
    rcases i.years_in_business_months with _ | y
    · exact le_rfl
    · exact ite_nonneg (by norm_num) (ite_nonneg (by norm_num)
        (ite_nonneg (by norm_num) le_rfl))
  have h4 : (0:ℚ) ≤ if i.character_references = "Good" then 5
      else if i.character_references = "Average" then 2 else 0 :=
    ite_nonneg (by norm_num) (ite_nonneg (by norm_num) le_rfl)
  have h5 : (0:ℚ) ≤
      (match i.age_years with
       | none => 0
       | some a => if a ≥ 40 then 2 else 0) := by
    rcases i.age_years with _ | a
    · exact le_rfl
    · exact ite_nonneg (by norm_num) le_rfl
  have h6 : (0:ℚ) ≤ if i.marital_status = "Married" then 1 else 0 :=
    ite_nonneg (by norm_num) le_rfl
  have h7 : (0:ℚ) ≤ if i.repeat_borrower = "Yes" then 3 else 0 :=
    ite_nonneg (by norm_num) le_rfl
  have h8 : (0:ℚ) ≤
      (match i.loan_series with
       | none => 0
       | some n => if i.repeat_borrower = "Yes" ∧ n ≥ 3 then 5 else 0) := by
    rcases i.loan_series with _ | n
    · exact le_rfl
    · exact ite_nonneg (by norm_num) le_rfl
  exact add_nonneg (add_nonneg (add_nonneg (add_nonneg (add_nonneg
    (add_nonneg (add_nonneg h1 h2) h3) h4) h5) h6) h7) h8

lemma scoreCapacityRaw_nonneg (l : Lookups) (d : Derived) :
    0 ≤ scoreCapacityRaw l d := by
  unfold scoreCapacityRaw
  rcases d.stressed_dscr with _ | v
  · norm_num
  · exact ite_nonneg (by norm_num) (ite_nonneg (by norm_num)
      (ite_nonneg (by norm_num) (ite_nonneg (by norm_num) le_rfl)))

lemma scoreCapitalRaw_nonneg (l : Lookups) (d : Derived) :
    0 ≤ scoreCapitalRaw l d := by
  unfold scoreCapitalRaw
  rcases d.equity_ratio with _ | v
  · norm_num
  · exact ite_nonneg (by norm_num) (ite_nonneg (by norm_num)
      (ite_nonneg (by norm_num) (ite_nonneg (by norm_num) le_rfl)))

lemma scoreCollateralRaw_ge (i : ApplicationInput) (l : Lookups) (d : Derived) :
    -2 ≤ scoreCollateralRaw i l d := by
  unfold scoreCollateralRaw
  split
  · norm_num
  · have htier : (0:ℚ) ≤
        (match d.ltv with
         | none => 0
         | some v =>
             if (i.collateral_type = "Movable" ∧ v ≤ 1)
                 ∨ (i.collateral_type = "Immovable" ∧ v ≤ 1) then 10
             else if (i.collateral_type = "Movable" ∧ v ≤ l.LTV_MAX_MOVABLE)
                 ∨ (i.collateral_type = "Immovable" ∧ v ≤ l.LTV_MAX_IMMOVABLE) then 6
             else 0) := by
      rcases d.ltv with _ | v
      · norm_num
      · exact ite_nonneg (by norm_num) (ite_nonneg (by norm_num) le_rfl)
    have hded : (if i.collateral_insured = "No" then (2:ℚ) else 0) ≤ 2 := by
      split <;> norm_num
    linarith

lemma scoreConditionsRaw_nonneg (i : ApplicationInput) :
    0 ≤ scoreConditionsRaw i := by
  unfold scoreConditionsRaw
  have h1 : (0:ℚ) ≤ if i.site_visit_assessment ≥ 4 then 5
      else if i.site_visit_assessment = 3 then 3 else 0 :=
    ite_nonneg (by norm_num) (ite_nonneg (by norm_num) le_rfl)
  have h2 : (0:ℚ) ≤ if i.is_business_seasonal = "No" then 2 else 0 :=
    ite_nonneg (by norm_num) le_rfl
  have h3 : (0:ℚ) ≤
      (match i.years_in_business_months, i.stability_months with
       | some y, some s => if s = y ∧ y ≥ 6 then 2 else 0
       | _, _ => 0) := by
    rcases i.years_in_business_months with _ | y <;>
      rcases i.stability_months with _ | st
    · exact le_rfl
    · exact le_rfl
    · exact le_rfl
    · exact ite_nonneg (by norm_num) le_rfl
  have h4 : 0 ≤ sectorScore i.sector := by
    unfold sectorScore
    exact ite_nonneg (by norm_num) (ite_nonneg (by norm_num)
      (ite_nonneg (by norm_num) (ite_nonneg (by norm_num) le_rfl)))
  exact add_nonneg (add_nonneg (add_nonneg h1 h2) h3) h4

/-! ### The claims -/

/-- C1: whenever one of the six rule-1 hard stops holds — the business-age
flag, the cash-flow-deficit flag, the income-variance flag, the
prior-default flag, the loan-hard-max flag, or collateral type `"None"` —
the recommendation is exactly "REJECT" whatever the total score; and when
none of them holds but the total score is ≤ 54, the recommendation is also
"REJECT". -/
theorem c1_hard_stops_force_reject (i : ApplicationInput) (l : Lookups)
    (s : String → Option ℚ) (d : Derived) (r : ScorecardResult)
    (hd : deriveMetrics i s = .ok d)
    (hr : calculate_scorecard i l s = .ok r) :
    (((flagsOf i l d).age_flag = true ∨ (flagsOf i l d).cf_deficit_flag = true
        ∨ (flagsOf i l d).income_var_flag = true
        ∨ (flagsOf i l d).default_flag = true
        ∨ (flagsOf i l d).loan_max_flag = true
        ∨ i.collateral_type = "None") →
      r.recommendation = "REJECT")
    ∧ ((flagsOf i l d).age_flag = false → (flagsOf i l d).cf_deficit_flag = false →
        (flagsOf i l d).income_var_flag = false →
        (flagsOf i l d).default_flag = false →
        (flagsOf i l d).loan_max_flag = false → i.collateral_type ≠ "None" →
        r.total_score ≤ 54 → r.recommendation = "REJECT") := by
  obtain ⟨d', hd', hr'⟩ := calculate_scorecard_ok hr
  rw [hd] at hd'
  injection hd' with hdd
  subst hdd
  subst hr'
  constructor
  · intro hhard
    show recommendationOf i (flagsOf i l d) (totalScore i l d) = "REJECT"
    unfold recommendationOf
    rcases hhard with h | h | h | h | h | h <;> simp +decide [h]
  · intro h1 h2 h3 h4 h5 h6 htot
    have htot' : totalScore i l d ≤ 54 := htot
    show recommendationOf i (flagsOf i l d) (totalScore i l d) = "REJECT"
    unfold recommendationOf
    simp +decide [h1, h2, h3, h4, h5, h6, htot']

/-- C1 witness: Scenario A trips the cash-flow-deficit hard stop, so its
recommendation is "REJECT". -/
theorem c1_hard_stops_force_reject_witness :
    scenarioAExpected.recommendation = "REJECT" :=
  (c1_hard_stops_force_reject scenarioA defaultLookups defaultSectorStress
      scenarioADerived scenarioAExpected sA_derive sA_calc).1
    (Or.inr (Or.inl (by rw [sA_flags]; rfl)))

/-- C2 (amended): with positive weight caps, the Character, Capacity,
Capital and Conditions scores lie in `[0, their caps]`; the Collateral
score lies in `[-2, W_COLLATERAL]` — it is −2, not 0, when the collateral
is uninsured and earns no LTV tier, because the code caps it only from
above; the total score always lies in `[1, 99]`. -/
theorem c2_score_bounds (i : ApplicationInput) (l : Lookups)
    (s : String → Option ℚ) (r : ScorecardResult)
    (hr : calculate_scorecard i l s = .ok r)
    (hch : 0 < l.W_CHARACTER) (hcap : 0 < l.W_CAPACITY) (hcpl : 0 < l.W_CAPITAL)
    (hcol : 0 < l.W_COLLATERAL) (hcon : 0 < l.W_CONDITION) :
    (0 ≤ r.score_character ∧ r.score_character ≤ l.W_CHARACTER)
    ∧ (0 ≤ r.score_capacity ∧ r.score_capacity ≤ l.W_CAPACITY)
    ∧ (0 ≤ r.score_capital ∧ r.score_capital ≤ l.W_CAPITAL)
    ∧ (-2 ≤ r.score_collateral ∧ r.score_collateral ≤ l.W_COLLATERAL)
    ∧ (0 ≤ r.score_conditions ∧ r.score_conditions ≤ l.W_CONDITION)
    ∧ (1 ≤ r.total_score ∧ r.total_score ≤ 99) := by
  obtain ⟨d, hd, hr'⟩ := calculate_scorecard_ok hr
  subst hr'
  refine ⟨⟨?_, ?_⟩, ⟨?_, ?_⟩, ⟨?_, ?_⟩, ⟨?_, ?_⟩, ⟨?_, ?_⟩, ⟨?_, ?_⟩⟩
  · exact le_min hch.le (scoreCharacterRaw_nonneg i)
  · exact min_le_left _ _
  · exact le_min hcap.le (scoreCapacityRaw_nonneg l d)
  · exact min_le_left _ _
  · exact le_min hcpl.le (scoreCapitalRaw_nonneg l d)
  · exact min_le_left _ _
  · exact le_min (by linarith) (scoreCollateralRaw_ge i l d)
  · exact min_le_left _ _
  · exact le_min hcon.le (scoreConditionsRaw_nonneg i)
  · exact min_le_left _ _
  · exact le_max_left _ _
  · exact max_le (by norm_num) (min_le_left _ _)

/-- C2 witness: the bounds instantiated at Scenario A with the default
policy: its total score lies in `[1, 99]`. -/
theorem c2_score_bounds_witness :
    1 ≤ scenarioAExpected.total_score ∧ scenarioAExpected.total_score ≤ 99 :=
  (c2_score_bounds scenarioA defaultLookups defaultSectorStress scenarioAExpected
      sA_calc (by norm_num [defaultLookups]) (by norm_num [defaultLookups])
      (by norm_num [defaultLookups]) (by norm_num [defaultLookups])
      (by norm_num [defaultLookups])).2.2.2.2.2

/-- C3 (amended): for collateral type `"None"` (and a positive collateral
cap), the LTV is forced to the sentinel 99 whenever the requested amount and
the market value are both present — it stays null if either is absent — the
collateral score is 0, the unconditional "REJECT: No Collateral" message is
in the triggered-flag list, and the recommendation is "REJECT" regardless of
the total score. -/
theorem c3_none_collateral (i : ApplicationInput) (l : Lookups)
    (s : String → Option ℚ) (d : Derived)
    (hd : deriveMetrics i s = .ok d)
    (hnone : i.collateral_type = "None") (hcol : 0 < l.W_COLLATERAL) :
    ((∃ a, i.requested_loan_amount = some a) →
      (∃ m, i.market_value = some m) → d.ltv = some 99)
    ∧ scoreCollateral i l d = 0
    ∧ (∀ r, calculate_scorecard i l s = .ok r →
        "REJECT: No Collateral" ∈ r.triggered_flags
        ∧ r.recommendation = "REJECT") := by
  have hltv : d.ltv = ltvOf i := (deriveMetrics_fields hd).2.2.2.2.2.2.2
  refine ⟨?_, ?_, ?_⟩
  · rintro ⟨a, ha⟩ ⟨m, hm⟩
    rw [hltv]
    unfold ltvOf
    rw [ha, hm]
    simp +decide [hnone]
  · have hraw : scoreCollateralRaw i l d = 0 := by
      unfold scoreCollateralRaw
      simp +decide [hnone]
    unfold scoreCollateral
    rw [hraw]
    exact min_eq_right hcol.le
  · intro r hr
    obtain ⟨d', hd', hr'⟩ := calculate_scorecard_ok hr
    rw [hd] at hd'
    injection hd' with hdd
    subst hdd
    subst hr'
    constructor
    · show "REJECT: No Collateral" ∈ triggeredFlags i (flagsOf i l d)
      unfold triggeredFlags
      simp +decide [hnone]
    · show recommendationOf i (flagsOf i l d) (totalScore i l d) = "REJECT"
      unfold recommendationOf
      simp +decide [hnone]

/-- C3 witness: with collateral type `"None"` and both the amount and the
market value present, the LTV is indeed the sentinel 99. -/
theorem c3_none_collateral_witness : c3ValuesDerived.ltv = some 99 :=
  (c3_none_collateral c3WithValues defaultLookups defaultSectorStress
      c3ValuesDerived c3v_derive rfl (by norm_num [defaultLookups])).1
    ⟨100, rfl⟩ ⟨50, rfl⟩

/-- C5: the installment the engine uses is the explicit monthly override
whenever that is present; otherwise, when amount, term and rate are all
present, it is `principal / term` for an exactly-zero monthly rate (null
when the term is zero), and the amortizing formula
`principal·monthly_rate / (1 − (1+monthly_rate)^(−term))` for a nonzero
monthly rate (null when the term is zero); and it is null when neither the
override nor the full amount/term/rate triad is available. -/
theorem c5_installment_sizing (i : ApplicationInput) (s : String → Option ℚ)
    (d : Derived) (hd : deriveMetrics i s = .ok d) :
    (∀ m, i.monthly_installment_override = some m →
      d.monthly_installment_used = some m)
    ∧ (i.monthly_installment_override = none →
        ∀ p t r0, i.requested_loan_amount = some p → i.term_months = some t →
          i.annual_interest_rate = some r0 →
          ((r0 / 100 / 12 = 0 →
              (t = 0 → d.monthly_installment_used = none)
              ∧ (t ≠ 0 → d.monthly_installment_used = some (p / t)))
           ∧ (r0 / 100 / 12 ≠ 0 →
              (t = 0 → d.monthly_installment_used = none)
              ∧ (t ≠ 0 → ∀ q, mathPow (1 + r0 / 100 / 12) (-t) = .ok q →
                  1 - q ≠ 0 →
                  d.monthly_installment_used
                    = some (r0 / 100 / 12 * p / (1 - q))))))
    ∧ (i.monthly_installment_override = none →
        (i.requested_loan_amount = none ∨ i.term_months = none
          ∨ i.annual_interest_rate = none) →
        d.monthly_installment_used = none) := by
  have hmi := (deriveMetrics_fields hd).1
  refine ⟨?_, ?_, ?_⟩
  · intro m hm
    unfold installmentUsed at hmi
    rw [hm] at hmi
    exact (Except.ok.inj hmi).symm
  · intro hov p t r0 hp ht hr0
    unfold installmentUsed at hmi
    rw [hov, hp, ht, hr0] at hmi
    unfold pmt at hmi
    dsimp only [] at hmi
    constructor
    · intro hz
      rw [if_pos hz] at hmi
      constructor
      · intro ht0
        rw [if_pos ht0] at hmi
        exact (Except.ok.inj hmi).symm
      · intro ht0
        rw [if_neg ht0] at hmi
        exact (Except.ok.inj hmi).symm
    · intro hnz
      rw [if_neg hnz] at hmi
      constructor
      · intro ht0
        rw [if_pos ht0] at hmi
        exact (Except.ok.inj hmi).symm
      · intro ht0 q hq hden
        rw [if_neg ht0, hq] at hmi
        dsimp only [] at hmi
        rw [if_neg hden] at hmi
        exact (Except.ok.inj hmi).symm
  · intro hov habs
    unfold installmentUsed at hmi
    rw [hov] at hmi
    rcases hp : i.requested_loan_amount with _ | p <;>
      rcases ht : i.term_months with _ | t <;>
        rcases hrr : i.annual_interest_rate with _ | r1 <;>
          rw [hp, ht, hrr] at hmi <;>
            first
            | exact (Except.ok.inj hmi).symm
            | (rcases habs with h1 | h1 | h1 <;>
                simp only [hp, ht, hrr, reduceCtorEq] at h1)

/-- C5 witness: Scenario A carries the override 4584, and that is the
installment used. -/
theorem c5_installment_sizing_witness :
    scenarioADerived.monthly_installment_used = some 4584 :=
  (c5_installment_sizing scenarioA defaultSectorStress scenarioADerived
      sA_derive).1 4584 rfl

/-- C6: when the installment used and the unstressed total monthly surplus
are both non-null, the repayment share is exactly 1 for a non-positive
surplus — whatever the installment — and installment/surplus for a positive
one; it is null whenever either input is null. -/
theorem c6_repayment_share (i : ApplicationInput) (s : String → Option ℚ)
    (d : Derived) (hd : deriveMetrics i s = .ok d) :
    (∀ m ts, d.monthly_installment_used = some m →
      d.total_monthly_surplus_unstressed = some ts →
      ((ts ≤ 0 → d.repayment_share = some 1)
        ∧ (0 < ts → d.repayment_share = some (m / ts))))
    ∧ ((d.monthly_installment_used = none
          ∨ d.total_monthly_surplus_unstressed = none) →
        d.repayment_share = none) := by
  have htmu := (deriveMetrics_fields hd).2.2.2.2.1
  have hrs := (deriveMetrics_fields hd).2.2.2.2.2.1
  rw [← htmu] at hrs
  refine ⟨?_, ?_⟩
  · intro m ts hm hts
    rw [hm, hts] at hrs
    unfold repaymentShareOf at hrs
    dsimp only [] at hrs
    constructor
    · intro hle
      rw [if_pos hle] at hrs
      exact hrs
    · intro hpos
      rw [if_neg (not_le.mpr hpos)] at hrs
      exact hrs
  · intro habs
    rcases habs with h1 | h1
    · rw [h1] at hrs
      rcases hts : d.total_monthly_surplus_unstressed with _ | ts <;>
        rw [hts] at hrs <;> exact hrs
    · rw [h1] at hrs
      rcases hm : d.monthly_installment_used with _ | m <;>
        rw [hm] at hrs <;> exact hrs

/-- C6 witness: Scenario A has installment 4584 and positive unstressed
total surplus 3500, so its repayment share is exactly 4584/3500. -/
theorem c6_repayment_share_witness :
    scenarioADerived.repayment_share = some (4584 / 3500) :=
  ((c6_repayment_share scenarioA defaultSectorStress scenarioADerived
      sA_derive).1 4584 3500 rfl rfl).2 (by norm_num)

lemma risk_band_eq_floor (s : ℚ) : risk_band s = riskBandFloor s := by
  simp only [risk_band, RISK_BANDS, riskBandScan, riskBandFloor, ge_iff_le,
    ite_self]

/-- C7: on `[1, 99]` the risk band is the floor match — the band of the
highest threshold ≤ the score among
{85 : Very Low, 70 : Low, 55 : Moderate, 40 : High, 1 : Very High} — and the
band is monotone: a higher score never maps to a higher-risk label. -/
theorem c7_risk_band_floor_and_monotone :
    (∀ s : ℚ, 1 ≤ s → s ≤ 99 → risk_band s = riskBandFloor s)
    ∧ ∀ s₁ s₂ : ℚ, s₁ ≤ s₂ →
        bandRank (risk_band s₁) ≤ bandRank (risk_band s₂) := by
  refine ⟨fun s _ _ => risk_band_eq_floor s, ?_⟩
  intro s₁ s₂ h
  rw [risk_band_eq_floor, risk_band_eq_floor]
  unfold riskBandFloor
  split_ifs <;> simp +decide [bandRank] <;> linarith

/-- C7 witness: 51 is floor-matched into the 40-band, and a score of 3 is
not a lower-risk band than 97. -/
theorem c7_risk_band_witness :
    risk_band 51 = riskBandFloor 51
    ∧ bandRank (risk_band 3) ≤ bandRank (risk_band 97) :=
  ⟨c7_risk_band_floor_and_monotone.1 51 (by norm_num) (by norm_num),
   c7_risk_band_floor_and_monotone.2 3 97 (by norm_num)⟩

/-- C8: the branch-limit and loan-hard-max flags are strict comparisons on a
present requested amount — the flag holds exactly when the amount is
strictly above the limit, an amount exactly at a limit triggers neither
flag, and an absent amount triggers neither. -/
theorem c8_strict_limit_comparisons (i : ApplicationInput) (l : Lookups)
    (d : Derived) :
    ((flagsOf i l d).branch_limit_flag = true ↔
      ∃ a, i.requested_loan_amount = some a ∧ l.BRANCH_APPROVAL_LIMIT_ETB < a)
    ∧ ((flagsOf i l d).loan_max_flag = true ↔
      ∃ a, i.requested_loan_amount = some a ∧ l.BUSINESS_LOAN_HARD_MAX_ETB < a)
    ∧ (i.requested_loan_amount = some l.BRANCH_APPROVAL_LIMIT_ETB →
      (flagsOf i l d).branch_limit_flag = false)
    ∧ (i.requested_loan_amount = some l.BUSINESS_LOAN_HARD_MAX_ETB →
      (flagsOf i l d).loan_max_flag = false)
    ∧ (i.requested_loan_amount = none →
      (flagsOf i l d).branch_limit_flag = false
        ∧ (flagsOf i l d).loan_max_flag = false) := by
  refine ⟨?_, ?_, ?_, ?_, ?_⟩
  · rcases hreq : i.requested_loan_amount with _ | a <;>
      simp [flagsOf, hreq]
  · rcases hreq : i.requested_loan_amount with _ | a <;>
      simp [flagsOf, hreq]
  · intro h
    simp [flagsOf, h]
  · intro h
    simp [flagsOf, h]
  · intro h
    simp [flagsOf, h]

/-- C8 witness: Scenario A requests exactly the default branch limit of
50000, and the branch-limit flag is not raised. -/
theorem c8_strict_limit_witness :
    (flagsOf scenarioA defaultLookups blankDerived).branch_limit_flag = false :=
  (c8_strict_limit_comparisons scenarioA defaultLookups blankDerived).2.2.1 rfl

/-- C10: noninterference of the opaque fields — two applications equal on
every field the engine reads (and arbitrary on officer and applicant
identity, branch, literacy, business name and type, ownership, loan
purpose, and application date) produce identical results under every
policy. -/
theorem c10_opaque_noninterference (i₁ i₂ : ApplicationInput) (l : Lookups)
    (s : String → Option ℚ)
    (h01 : i₁.sex = i₂.sex)
    (h02 : i₁.age_years = i₂.age_years)
    (h03 : i₁.marital_status = i₂.marital_status)
    (h04 : i₁.repeat_borrower = i₂.repeat_borrower)
    (h05 : i₁.loan_series = i₂.loan_series)
    (h06 : i₁.prior_default = i₂.prior_default)
    (h07 : i₁.requested_loan_amount = i₂.requested_loan_amount)
    (h08 : i₁.monthly_installment_override = i₂.monthly_installment_override)
    (h09 : i₁.term_months = i₂.term_months)
    (h10 : i₁.annual_interest_rate = i₂.annual_interest_rate)
    (h11 : i₁.site_visit_assessment = i₂.site_visit_assessment)
    (h12 : i₁.sector = i₂.sector)
    (h13 : i₁.training_certification = i₂.training_certification)
    (h14 : i₁.is_business_seasonal = i₂.is_business_seasonal)
    (h15 : i₁.years_in_business_months = i₂.years_in_business_months)
    (h16 : i₁.character_references = i₂.character_references)
    (h17 : i₁.stability_months = i₂.stability_months)
    (h18 : i₁.stated_revenue = i₂.stated_revenue)
    (h19 : i₁.verified_revenue = i₂.verified_revenue)
    (h20 : i₁.cogs_inventory = i₂.cogs_inventory)
    (h21 : i₁.other_monthly_income = i₂.other_monthly_income)
    (h22 : i₁.rent = i₂.rent)
    (h23 : i₁.household_expenses = i₂.household_expenses)
    (h24 : i₁.utilities = i₂.utilities)
    (h25 : i₁.owner_withdrawals = i₂.owner_withdrawals)
    (h26 : i₁.wages = i₂.wages)
    (h27 : i₁.transport = i₂.transport)
    (h28 : i₁.other_operating_costs = i₂.other_operating_costs)
    (h29 : i₁.total_capital = i₂.total_capital)
    (h30 : i₁.additional_savings_equity = i₂.additional_savings_equity)
    (h31 : i₁.collateral_type = i₂.collateral_type)
    (h32 : i₁.collateral_insured = i₂.collateral_insured)
    (h33 : i₁.market_value = i₂.market_value) :
    calculate_scorecard i₁ l s = calculate_scorecard i₂ l s := by
  cases i₁
  cases i₂
  simp only [] at *
  subst_vars
  rfl

/-- C10 witness: two otherwise-blank applications that differ only in the
applicant's name evaluate to the same result. -/
theorem c10_opaque_noninterference_witness :
    calculate_scorecard blankInput defaultLookups defaultSectorStress
      = calculate_scorecard renamedBlankInput defaultLookups defaultSectorStress :=
  c10_opaque_noninterference blankInput renamedBlankInput defaultLookups
    defaultSectorStress rfl rfl rfl rfl rfl rfl rfl rfl rfl rfl rfl rfl rfl rfl
    rfl rfl rfl rfl rfl rfl rfl rfl rfl rfl rfl rfl rfl rfl rfl rfl rfl rfl rfl

/-- C9: with the documented default policy, the Scenario A application
evaluates to exactly the promised result — operating expenses 8000,
unstressed/stressed business surpluses 8000/6800, total surpluses 3500/2300,
stressed DSCR 2300/4584, equity ratio 0.6, LTV 2/3, category scores
21/0/10/10/10, total score 51, risk band "High Risk", the cash-flow-deficit
message as the only triggered flag, and recommendation "REJECT" — and the
flag record has the cash-flow-deficit flag true and every other flag
false. -/
theorem c9_scenario_a :
    calculate_scorecard scenarioA defaultLookups defaultSectorStress
        = .ok scenarioAExpected
    ∧ (deriveMetrics scenarioA defaultSectorStress).map
          (fun d => flagsOf scenarioA defaultLookups d)
        = .ok scenarioAFlags := by
  refine ⟨sA_calc, ?_⟩
  rw [sA_derive]
  simp only [Except.map]
  rw [sA_flags]

/-- C4 (code bug): the claim — and the specification's error-handling
design — says `calculate_scorecard` never raises, for negative rates
included; but at `c4FailingInput` the Python code reaches
`math.pow(1 + rate, -periods)` with base `0` and a negative exponent, which
raises `ValueError` and aborts the evaluation. -/
theorem c4_negative_rate_raises :
    calculate_scorecard c4FailingInput defaultLookups defaultSectorStress
      = .error ScoreErr.powDomain := by
  norm_num +decide [calculate_scorecard, deriveMetrics, installmentUsed,
    c4FailingInput, blankInput, pmt, mathPow, Except.map, Except.bind, bind]

/-- C2 (counterexample): the claim puts every category score in
`[0, its cap]`, but at `c2Uninsured` (default policy, caps all positive) the
collateral category score in the returned result is −2 < 0. -/
theorem c2_collateral_score_negative :
    (calculate_scorecard c2Uninsured defaultLookups defaultSectorStress).map
        ScorecardResult.score_collateral = .ok (-2)
    ∧ ¬ (0 : ℚ) ≤ -2 := by
  constructor
  · norm_num +decide [calculate_scorecard, deriveMetrics, installmentUsed,
      c2Uninsured, blankInput, Except.map, assembleResult, scoreCollateral,
      scoreCollateralRaw, ltvOf, defaultLookups, min_def]
  · norm_num

/-- C3 (counterexample): the claim says collateral type `"None"` forces
LTV = 99 for every application, but when the requested amount and market
value are absent the engine leaves LTV null (`None`), not 99. -/
theorem c3_ltv_not_forced_without_values :
    (calculate_scorecard c3NoValues defaultLookups defaultSectorStress).map
        ScorecardResult.ltv = .ok none
    ∧ ((Except.ok none : Except ScoreErr (Option ℚ)) ≠ .ok (some 99)) := by
  constructor
  · norm_num +decide [calculate_scorecard, deriveMetrics, installmentUsed,
      c3NoValues, blankInput, Except.map, assembleResult, ltvOf]
  · simp

end HMFI
